import Mathlib

/-!
Shallow embedding of `src/main.py` from the repository
`arithmetic-sequence-from-sum-n-diff`.

Real numbers are modelled by `ℚ` (the spec's "real" inputs; all program
arithmetic is field arithmetic, embedded exactly). Python's `ValueError`
becomes `Except String`; the list comprehensions become `List.map` over
`List.range`; printing becomes a pure list of output lines paired with the
process exit code.
-/

namespace ArithSeq

/-- The fixed absolute tolerance `1e-9` used by `verify_sequence`. -/
def tol : ℚ := 1 / 1000000000

/-- The first term `a = (Sum - d*n*(n-1)/2) / n` computed on line 22 of
`src/main.py` (local variable `first_term`). -/
def first_term (n : ℤ) (total_sum common_diff : ℚ) : ℚ :=
  (total_sum - common_diff * (n : ℚ) * ((n : ℚ) - 1) / 2) / (n : ℚ)

/-- `calculate_arithmetic_sequence` from `src/main.py` lines 5–25:
raises `ValueError("Number of elements must be positive")` when `n <= 0`,
otherwise returns `[first_term + i * common_diff for i in range(n)]`. -/
def calculate_arithmetic_sequence (n : ℤ) (total_sum common_diff : ℚ) :
    Except String (List ℚ) :=
  if n ≤ 0 then
    Except.error "Number of elements must be positive"
  else
    Except.ok ((List.range n.toNat).map fun i : ℕ =>
      first_term n total_sum common_diff + (i : ℚ) * common_diff)

/-- One decimal digit as a character (used to model `%.4f` digit output). -/
def digitChar : ℕ → Char
  | 0 => '0'
  | 1 => '1'
  | 2 => '2'
  | 3 => '3'
  | 4 => '4'
  | 5 => '5'
  | 6 => '6'
  | 7 => '7'
  | 8 => '8'
  | 9 => '9'
  | _ => '0'

/-- Zero-padded 4-digit rendering of a natural number below 10000 (the
fractional part of a `%.4f` rendering). -/
def pad4 (m : ℕ) : String :=
  String.mk [digitChar (m / 1000 % 10), digitChar (m / 100 % 10),
             digitChar (m / 10 % 10), digitChar (m % 10)]

/-- Python `int(x)`: truncation toward zero. -/
def ratTrunc (x : ℚ) : ℤ :=
  if x < 0 then ⌈x⌉ else ⌊x⌋

/-- Python `f"{x:.4f}"` modelled over `ℚ`: sign, integer part, a point, and
the fractional part rounded to four decimal digits. -/
def fixed4 (x : ℚ) : String :=
  let m : ℤ := round (|x| * 10000)
  (if x < 0 then "-" else "") ++ toString (m / 10000) ++ "." ++ pad4 (m % 10000).toNat

/-- The per-element rendering inside `format_sequence` (line 30 of
`src/main.py`): `f"{x:.4f}" if x % 1 != 0 else f"{int(x)}"`. Python's
`x % 1` is `x - ⌊x⌋`, i.e. `Int.fract x`. -/
def format_element (x : ℚ) : String :=
  if Int.fract x ≠ 0 then fixed4 x else toString (ratTrunc x)

/-- `format_sequence` from `src/main.py` lines 28–30: `", ".join(...)`. -/
def format_sequence (sequence : List ℚ) : String :=
  String.intercalate ", " (sequence.map format_element)

/-- `verify_sequence` from `src/main.py` lines 33–46. -/
def verify_sequence (sequence : List ℚ) (expected_sum expected_diff : ℚ) : Bool :=
  if sequence.length < 2 then
    decide (|sequence.sum - expected_sum| < tol)
  else
    let actual_sum := sequence.sum
    let sum_matches := decide (|actual_sum - expected_sum| < tol)
    let differences := List.zipWith (fun b c => b - c) sequence.tail sequence
    let diff_matches := differences.all fun d => decide (|d - expected_diff| < tol)
    sum_matches && diff_matches

/-- The argparse result consumed by `main` (line 96 of `src/main.py`): a
successfully parsed invocation with its four recognized options. -/
structure Args where
  num_elements : ℤ
  sum : ℚ
  diff : ℚ
  verify : Bool

/-- `main` from `src/main.py` lines 98–115, after argument parsing: returns
the lines printed to standard output and the value returned to `exit`
(`1` from the `except ValueError` handler, else `0`). -/
def main (args : Args) : List String × ℤ :=
  match calculate_arithmetic_sequence args.num_elements args.sum args.diff with
  | Except.error e => (["Error: " ++ e], 1)
  | Except.ok sequence =>
    let headerLines := ["Arithmetic Sequence (" ++ toString args.num_elements ++ " elements):",
                        format_sequence sequence]
    let verifyLines :=
      if args.verify then
        let is_valid := verify_sequence sequence args.sum args.diff
        ["", "Verification:",
         "  Sum: " ++ fixed4 sequence.sum ++ " (expected: " ++ toString args.sum ++ ")",
         "  Common difference: " ++ toString args.diff,
         "  Valid: " ++ (if is_valid then "✓" else "✗")]
      else []
    (headerLines ++ verifyLines, 0)

/-! ## Helper lemmas about the generated sequence -/

lemma calculate_ok (n : ℤ) (hn : 1 ≤ n) (s d : ℚ) :
    calculate_arithmetic_sequence n s d =
      Except.ok ((List.range n.toNat).map fun i : ℕ => first_term n s d + (i : ℚ) * d) := by
  unfold calculate_arithmetic_sequence
  rw [if_neg (by omega)]

lemma seq_get (m : ℕ) (a d : ℚ) (i : ℕ)
    (h : i < ((List.range m).map fun j : ℕ => a + (j : ℚ) * d).length) :
    ((List.range m).map fun j : ℕ => a + (j : ℚ) * d).get ⟨i, h⟩ = a + (i : ℚ) * d := by
  simp [List.get_eq_getElem]

lemma seq_sum (a d : ℚ) : ∀ m : ℕ,
    ((List.range m).map fun i : ℕ => a + (i : ℚ) * d).sum
      = (m : ℚ) * a + d * ((m : ℚ) * ((m : ℚ) - 1)) / 2
  | 0 => by simp
  | m + 1 => by
    rw [List.range_succ, List.map_append, List.sum_append, seq_sum a d m]
    push_cast
    simp
    ring

lemma sum_calculate (n : ℤ) (hn : 1 ≤ n) (s d : ℚ) :
    ((List.range n.toNat).map fun i : ℕ => first_term n s d + (i : ℚ) * d).sum = s := by
  rw [seq_sum]
  have hcast : ((n.toNat : ℚ)) = (n : ℚ) := by
    exact_mod_cast congrArg (fun z : ℤ => (z : ℚ)) (Int.toNat_of_nonneg (by omega))
  have hn0 : (n : ℚ) ≠ 0 := by
    exact_mod_cast (by omega : n ≠ 0)
  rw [hcast]
  unfold first_term
  field_simp
  ring

lemma diffs_length (s : List ℚ) :
    (List.zipWith (fun b c => b - c) s.tail s).length = s.length - 1 := by
  simp [List.length_zipWith]

lemma diffs_get (s : List ℚ) (i : ℕ)
    (h : i < (List.zipWith (fun b c => b - c) s.tail s).length) :
    (List.zipWith (fun b c => b - c) s.tail s).get ⟨i, h⟩
      = s.get ⟨i + 1, by rw [diffs_length] at h; omega⟩
        - s.get ⟨i, by rw [diffs_length] at h; omega⟩ := by
  simp [List.get_eq_getElem, List.getElem_zipWith, List.getElem_tail]

lemma seq_diffs (m : ℕ) (a d : ℚ) {x : ℚ}
    (hx : x ∈ List.zipWith (fun b c => b - c)
        ((List.range m).map fun i : ℕ => a + (i : ℚ) * d).tail
        ((List.range m).map fun i : ℕ => a + (i : ℚ) * d)) :
    x = d := by
  rw [List.mem_iff_get] at hx
  obtain ⟨⟨i, h⟩, rfl⟩ := hx
  rw [diffs_get, seq_get, seq_get]
  push_cast
  ring

lemma calc_1_7_3 : calculate_arithmetic_sequence 1 7 3 = Except.ok [7] := by
  rw [calculate_ok 1 (by norm_num) 7 3]
  norm_num [first_term, List.range_succ, Int.toNat_ofNat]

lemma calc_2_3_1 : calculate_arithmetic_sequence 2 3 1 = Except.ok [1, 2] := by
  rw [calculate_ok 2 (by norm_num) 3 1, show Int.toNat 2 = 2 from rfl]
  norm_num [first_term, List.range_succ]

lemma calc_3_6_1 : calculate_arithmetic_sequence 3 6 1 = Except.ok [1, 2, 3] := by
  rw [calculate_ok 3 (by norm_num) 6 1, show Int.toNat 3 = 3 from rfl]
  norm_num [first_term, List.range_succ]

/-! ## Claims -/

/-- Claim C1: for every integer `count ≥ 1` and all reals `sum` and
`commonDifference`, `calculate` returns a sequence of length exactly `count`
whose element `i` (0-indexed) equals `first + i * commonDifference`, where
`first = (sum - commonDifference * count * (count - 1) / 2) / count`, in
order of increasing `i`. -/
theorem claim_C1 (n : ℤ) (hn : 1 ≤ n) (s d : ℚ) :
    ∃ xs : List ℚ, calculate_arithmetic_sequence n s d = Except.ok xs ∧
      (xs.length : ℤ) = n ∧
      ∀ i (h : i < xs.length),
        xs.get ⟨i, h⟩ = (s - d * (n : ℚ) * ((n : ℚ) - 1) / 2) / (n : ℚ) + (i : ℚ) * d := by
  refine ⟨_, calculate_ok n hn s d, ?_, ?_⟩
  · simp only [List.length_map, List.length_range]
    exact_mod_cast Int.toNat_of_nonneg (by omega)
  · intro i h
    rw [seq_get]
    rfl

/-- Witness for C1 at `count = 5`, `sum = 25`, `diff = 2`. -/
theorem claim_C1_witness :
    ∃ xs : List ℚ, calculate_arithmetic_sequence 5 25 2 = Except.ok xs ∧
      (xs.length : ℤ) = 5 ∧
      ∀ i (h : i < xs.length),
        xs.get ⟨i, h⟩ = (25 - 2 * (5 : ℚ) * ((5 : ℚ) - 1) / 2) / (5 : ℚ) + (i : ℚ) * 2 :=
  claim_C1 5 (by norm_num) 25 2

/-- Claim C2: round-trip law — for every integer `count ≥ 1` and all reals
`sum` and `diff`, `verify(calculate(count, sum, diff), sum, diff)` returns
`true`. -/
theorem claim_C2 (n : ℤ) (hn : 1 ≤ n) (s d : ℚ) (xs : List ℚ)
    (hxs : calculate_arithmetic_sequence n s d = Except.ok xs) :
    verify_sequence xs s d = true := by
  rw [calculate_ok n hn s d] at hxs
  injection hxs with hxs
  subst hxs
  unfold verify_sequence
  by_cases hlen :
      ((List.range n.toNat).map fun i : ℕ => first_term n s d + (i : ℚ) * d).length < 2
  · rw [if_pos hlen]
    rw [decide_eq_true_eq, sum_calculate n hn s d]
    norm_num [tol]
  · rw [if_neg hlen]
    simp only [Bool.and_eq_true, decide_eq_true_eq, List.all_eq_true]
    constructor
    · rw [sum_calculate n hn s d]
      norm_num [tol]
    · intro x hx
      rw [seq_diffs n.toNat (first_term n s d) d hx]
      norm_num [tol]

/-- Witness for C2 at `count = 1`, `sum = 7`, `diff = 3`. -/
theorem claim_C2_witness : verify_sequence [7] 7 3 = true :=
  claim_C2 1 (by norm_num) 7 3 [7] calc_1_7_3

/-- Claim C3: for every integer `count ≤ 0` and all reals `sum` and `diff`,
`calculate` fails with the message "Number of elements must be positive" and
produces no sequence; for `count ≥ 1` it never fails. -/
theorem claim_C3 (n : ℤ) (s d : ℚ) :
    (n ≤ 0 → calculate_arithmetic_sequence n s d =
        Except.error "Number of elements must be positive") ∧
    (1 ≤ n → ∃ xs, calculate_arithmetic_sequence n s d = Except.ok xs) := by
  constructor
  · intro h
    unfold calculate_arithmetic_sequence
    rw [if_pos h]
  · intro h
    exact ⟨_, calculate_ok n h s d⟩

/-- Witness for C3 at `count = 0` and `count = 3`. -/
theorem claim_C3_witness :
    calculate_arithmetic_sequence 0 1 1 =
        Except.error "Number of elements must be positive" ∧
    ∃ xs, calculate_arithmetic_sequence 3 1 1 = Except.ok xs :=
  ⟨(claim_C3 0 1 1).1 (by norm_num), (claim_C3 3 1 1).2 (by norm_num)⟩

/-- Claim C4: for every integer `count ≥ 1` and all reals `sum` and `diff`,
the sum of the elements of `calculate(count, sum, diff)` equals `sum` to
within absolute tolerance `1e-9`. -/
theorem claim_C4 (n : ℤ) (hn : 1 ≤ n) (s d : ℚ) (xs : List ℚ)
    (hxs : calculate_arithmetic_sequence n s d = Except.ok xs) :
    |xs.sum - s| ≤ tol := by
  rw [calculate_ok n hn s d] at hxs
  injection hxs with hxs
  subst hxs
  rw [sum_calculate n hn s d]
  norm_num [tol]

/-- Witness for C4 at `count = 1`, `sum = 7`, `diff = 3`. -/
theorem claim_C4_witness : |([(7 : ℚ)]).sum - 7| ≤ tol :=
  claim_C4 1 (by norm_num) 7 3 [7] calc_1_7_3

/-- Claim C5: for every integer `count ≥ 2` and all reals `sum` and `diff`,
every consecutive-element difference of `calculate(count, sum, diff)` equals
`diff` to within absolute tolerance `1e-9`. -/
theorem claim_C5 (n : ℤ) (hn : 2 ≤ n) (s d : ℚ) (xs : List ℚ)
    (hxs : calculate_arithmetic_sequence n s d = Except.ok xs) :
    ∀ i (h : i + 1 < xs.length),
      |(xs.get ⟨i + 1, h⟩ - xs.get ⟨i, Nat.lt_of_succ_lt h⟩) - d| ≤ tol := by
  rw [calculate_ok n (by omega) s d] at hxs
  injection hxs with hxs
  subst hxs
  intro i h
  rw [seq_get, seq_get]
  push_cast
  have hz : (first_term n s d + ((i : ℚ) + 1) * d) - (first_term n s d + (i : ℚ) * d) - d = 0 := by
    ring
  rw [hz]
  norm_num [tol]

/-- Witness for C5 at `count = 2`, `sum = 3`, `diff = 1`, index `i = 0`. -/
theorem claim_C5_witness :
    |(([(1 : ℚ), 2]).get ⟨1, by norm_num⟩ - ([(1 : ℚ), 2]).get ⟨0, by norm_num⟩) - 1| ≤ tol :=
  claim_C5 2 (by norm_num) 3 1 [1, 2] calc_2_3_1 0 (by norm_num)

/-- Claim C6: `verify` returns true iff the sum matches within `1e-9` and —
when the sequence has at least two elements — every consecutive difference
matches `expectedDiff` within `1e-9`; with fewer than two elements the
difference check is vacuous. -/
theorem claim_C6 (s : List ℚ) (es ed : ℚ) :
    (s.length < 2 → (verify_sequence s es ed = true ↔ |s.sum - es| < tol)) ∧
    (2 ≤ s.length → (verify_sequence s es ed = true ↔
      |s.sum - es| < tol ∧
      ∀ i (h : i + 1 < s.length),
        |(s.get ⟨i + 1, h⟩ - s.get ⟨i, Nat.lt_of_succ_lt h⟩) - ed| < tol)) := by
  constructor
  · intro h
    unfold verify_sequence
    rw [if_pos h]
    simp
  · intro h
    unfold verify_sequence
    rw [if_neg (by omega)]
    simp only [Bool.and_eq_true, decide_eq_true_eq, List.all_eq_true]
    constructor
    · rintro ⟨h1, h2⟩
      refine ⟨h1, ?_⟩
      intro i hi
      have hb : i < (List.zipWith (fun b c => b - c) s.tail s).length := by
        rw [diffs_length]; omega
      have hmem : (List.zipWith (fun b c => b - c) s.tail s).get ⟨i, hb⟩
          ∈ List.zipWith (fun b c => b - c) s.tail s := List.get_mem _ _ _
      have hlt := h2 _ hmem
      rw [diffs_get] at hlt
      exact hlt
    · rintro ⟨h1, h2⟩
      refine ⟨h1, ?_⟩
      intro x hx
      rw [List.mem_iff_get] at hx
      obtain ⟨⟨i, hb⟩, rfl⟩ := hx
      rw [diffs_get]
      exact h2 i (by rw [diffs_length] at hb; omega)

/-- Witness for C6 on the one-element sequence `[5]`. -/
theorem claim_C6_witness : verify_sequence [5] 5 0 = true :=
  ((claim_C6 [5] 5 0).1 (by norm_num)).mpr (by norm_num [tol])

/-- Claim C9: under exact arithmetic, for every integer `count ≥ 1` and all
rationals `sum` and `diff`, the sum of the elements of
`calculate(count, sum, diff)` equals `sum` exactly. -/
theorem claim_C9 (n : ℤ) (hn : 1 ≤ n) (s d : ℚ) (xs : List ℚ)
    (hxs : calculate_arithmetic_sequence n s d = Except.ok xs) :
    xs.sum = s := by
  rw [calculate_ok n hn s d] at hxs
  injection hxs with hxs
  subst hxs
  exact sum_calculate n hn s d

/-- Witness for C9 at `count = 1`, `sum = 7`, `diff = 3`. -/
theorem claim_C9_witness : ([(7 : ℚ)]).sum = 7 :=
  claim_C9 1 (by norm_num) 7 3 [7] calc_1_7_3

/-- Claim C10: under exact arithmetic, for every integer `count ≥ 2` and all
rationals `sum` and `diff`, the sequence returned by `calculate` is strictly
increasing when `diff > 0`, strictly decreasing when `diff < 0`, and constant
when `diff = 0`. -/
theorem claim_C10 (n : ℤ) (hn : 2 ≤ n) (s d : ℚ) (xs : List ℚ)
    (hxs : calculate_arithmetic_sequence n s d = Except.ok xs) :
    (0 < d → ∀ i j (hi : i < xs.length) (hj : j < xs.length), i < j →
      xs.get ⟨i, hi⟩ < xs.get ⟨j, hj⟩) ∧
    (d < 0 → ∀ i j (hi : i < xs.length) (hj : j < xs.length), i < j →
      xs.get ⟨j, hj⟩ < xs.get ⟨i, hi⟩) ∧
    (d = 0 → ∀ i j (hi : i < xs.length) (hj : j < xs.length),
      xs.get ⟨i, hi⟩ = xs.get ⟨j, hj⟩) := by
  rw [calculate_ok n (by omega) s d] at hxs
  injection hxs with hxs
  subst hxs
  refine ⟨?_, ?_, ?_⟩
  · intro hd i j hi hj hij
    rw [seq_get, seq_get]
    have hc : (i : ℚ) < (j : ℚ) := by exact_mod_cast hij
    have := mul_lt_mul_of_pos_right hc hd
    linarith
  · intro hd i j hi hj hij
    rw [seq_get, seq_get]
    have hc : (i : ℚ) < (j : ℚ) := by exact_mod_cast hij
    have := mul_lt_mul_of_neg_right hc hd
    linarith
  · intro hd i j hi hj
    subst hd
    rw [seq_get, seq_get]
    simp

/-- Witness for C10 at `count = 3`, `sum = 6`, `diff = 1`, indices `0 < 2`. -/
theorem claim_C10_witness :
    ([(1 : ℚ), 2, 3]).get ⟨0, by decide⟩ < ([(1 : ℚ), 2, 3]).get ⟨2, by decide⟩ :=
  (claim_C10 3 (by norm_num) 6 1 [1, 2, 3] calc_3_6_1).1 (by norm_num) 0 2
    (by decide) (by decide) (by norm_num)

/-! ## Helper lemmas about formatting -/

lemma digitChar_isDigit (d : ℕ) : (digitChar d).isDigit = true := by
  rcases d with _ | _ | _ | _ | _ | _ | _ | _ | _ | _ | d <;> rfl

lemma pad4_length (m : ℕ) : (pad4 m).length = 4 := rfl

lemma pad4_digits (m : ℕ) : ∀ c ∈ (pad4 m).data, c.isDigit = true := by
  intro c hc
  have hdata : (pad4 m).data = [digitChar (m / 1000 % 10), digitChar (m / 100 % 10),
      digitChar (m / 10 % 10), digitChar (m % 10)] := rfl
  rw [hdata] at hc
  simp only [List.mem_cons, List.not_mem_nil, or_false] at hc
  rcases hc with h | h | h | h <;> (subst h; exact digitChar_isDigit _)

lemma fract_eq_zero_of_den_one (x : ℚ) (hx : x.den = 1) : Int.fract x = 0 := by
  have hx2 : ((x.num : ℚ)) = x := (Rat.den_eq_one_iff x).mp hx
  rw [← hx2]
  exact Int.fract_intCast x.num

lemma fract_ne_zero_of_den_ne_one (x : ℚ) (hx : x.den ≠ 1) : Int.fract x ≠ 0 := by
  intro h
  rw [← Int.self_sub_floor] at h
  have hfl : x = (⌊x⌋ : ℚ) := by linarith
  rw [hfl] at hx
  exact hx (Rat.den_intCast ⌊x⌋)

lemma format_element_int (x : ℚ) (hx : x.den = 1) :
    format_element x = toString x.num := by
  have hx2 : ((x.num : ℚ)) = x := (Rat.den_eq_one_iff x).mp hx
  unfold format_element
  rw [if_neg (by simp [fract_eq_zero_of_den_one x hx])]
  unfold ratTrunc
  by_cases hneg : x < 0
  · rw [if_pos hneg, ← hx2, Int.ceil_intCast, Rat.num_intCast]
  · rw [if_neg hneg, ← hx2, Int.floor_intCast, Rat.num_intCast]

lemma format_element_frac (x : ℚ) (hx : x.den ≠ 1) :
    ∃ pre post : String, format_element x = pre ++ "." ++ post ∧ post.length = 4 ∧
      ∀ c ∈ post.data, c.isDigit = true := by
  refine ⟨(if x < 0 then "-" else "") ++ toString (round (|x| * 10000) / 10000),
    pad4 ((round (|x| * 10000) % 10000).toNat), ?_, pad4_length _, pad4_digits _⟩
  unfold format_element
  rw [if_pos (fract_ne_zero_of_den_ne_one x hx)]
  rfl

lemma fe_5 : format_element (5 : ℚ) = "5" := by
  rw [format_element_int 5 (by norm_num), show ((5 : ℚ)).num = 5 by norm_num]
  rfl

lemma fe_3 : format_element (3 : ℚ) = "3" := by
  rw [format_element_int 3 (by norm_num), show ((3 : ℚ)).num = 3 by norm_num]
  rfl

lemma fe_5_2 : format_element ((5 : ℚ) / 2) = "2.5000" := by
  unfold format_element
  rw [if_pos (by norm_num [Int.fract] : Int.fract ((5 : ℚ) / 2) ≠ 0)]
  unfold fixed4
  rw [show |(5 : ℚ) / 2| = 5 / 2 by norm_num]
  rw [show round ((5 : ℚ) / 2 * 10000) = 25000 by norm_num [round_eq]]
  rw [if_neg (by norm_num : ¬((5 : ℚ) / 2 < 0))]
  rfl

/-- Claim C7: `format` renders mathematically integral elements as plain
integer literals, renders every other element with exactly 4 digits after
the decimal point, joins renderings with ", " in order, and renders the
empty sequence as the empty string. -/
theorem claim_C7 :
    format_sequence [] = "" ∧
    (∀ x : ℚ, x.den = 1 → format_element x = toString x.num) ∧
    (∀ x : ℚ, x.den ≠ 1 → ∃ pre post : String,
      format_element x = pre ++ "." ++ post ∧ post.length = 4 ∧
      ∀ c ∈ post.data, c.isDigit = true) ∧
    format_element 5 = "5" ∧
    format_sequence [5, 5 / 2, 3] = "5, 2.5000, 3" := by
  refine ⟨rfl, format_element_int, format_element_frac, fe_5, ?_⟩
  unfold format_sequence
  rw [List.map_cons, List.map_cons, List.map_cons, List.map_nil, fe_5, fe_5_2, fe_3]
  rfl

/-- Witness for C7 on the integral element `7`. -/
theorem claim_C7_witness : format_element (7 : ℚ) = toString ((7 : ℚ)).num :=
  claim_C7.2.1 7 (by norm_num)

/-- Claim C8: for every parsed invocation, the driver prints
`Error: <message>` and exits with status 1 when the calculator rejects
`count ≤ 0`; every other execution path exits with status 0. -/
theorem claim_C8 (a : Args) :
    (a.num_elements ≤ 0 →
      main a = (["Error: Number of elements must be positive"], 1)) ∧
    (1 ≤ a.num_elements → (main a).2 = 0) := by
  constructor
  · intro h
    have herr : calculate_arithmetic_sequence a.num_elements a.sum a.diff =
        Except.error "Number of elements must be positive" := by
      unfold calculate_arithmetic_sequence
      rw [if_pos h]
    unfold main
    rw [herr]
    rfl
  · intro h
    unfold main
    rw [calculate_ok a.num_elements h a.sum a.diff]

/-- Witness for C8 at an invalid (`count = 0`) and a valid (`count = 3`)
invocation. -/
theorem claim_C8_witness :
    main ⟨0, 1, 1, false⟩ = (["Error: Number of elements must be positive"], 1) ∧
    (main ⟨3, 6, 1, true⟩).2 = 0 :=
  ⟨(claim_C8 ⟨0, 1, 1, false⟩).1 (by decide), (claim_C8 ⟨3, 6, 1, true⟩).2 (by decide)⟩

end ArithSeq
